import Mathlib

/-!
Shallow embedding of the smart-router repository (classifier.js,
ollama-classifier.js, and the proxy handler) and proofs of the spec claims.
Numeric scores are modelled as exact rationals; JavaScript `x || d`
defaulting on numbers and strings is modelled by `jsOrQ` / `jsOrS`
(0, NaN and the empty string are falsy in JavaScript; NaN does not arise
in the modelled fragment).
-/

namespace SmartRouter

/-- Routing tiers, including the administrative tiers used by the proxy
handler (`forced` when FORCE_MODEL is set, `passthrough` when routing is
disabled). -/
inductive Tier where
  | simple
  | medium
  | complex
  | forced
  | passthrough
deriving DecidableEq, Repr

/-- The `source` field stamped on a classification result by the proxy
handler: `heuristics`, `ollama`, `forced`, or the initial `none`. -/
inductive Source where
  | heuristics
  | ollama
  | forced
  | srcNone
deriving DecidableEq, Repr

/-- The config object passed to the classifiers.  In JavaScript every field
may be absent, hence `Option`; the defaults in the code are applied with
`||`, modelled by `jsOrQ` / `jsOrS` below. -/
structure RoutingConfig where
  simpleThreshold : Option ℚ := none
  complexThreshold : Option ℚ := none
  simpleModel : Option String := none
  mediumModel : Option String := none
  complexModel : Option String := none
deriving Repr

/-- JavaScript `v || d` for an optional number: an absent value or the
falsy number 0 falls back to the default. -/
def jsOrQ (v : Option ℚ) (d : ℚ) : ℚ :=
  match v with
  | some x => if x = 0 then d else x
  | none => d

/-- JavaScript `v || d` for an optional string: an absent value or the
falsy empty string falls back to the default. -/
def jsOrS (v : Option String) (d : String) : String :=
  match v with
  | some s => if s = "" then d else s
  | none => d

/-- The `{model, tier, score}` record returned by both tier mappers. -/
structure TierRec where
  model : String
  tier : Tier
  score : ℚ
deriving DecidableEq, Repr

/-- `getModelForComplexity(score, config)` from classifier.js: thresholds
and model names default via `||`, then the score is placed in one of the
three half-open bands. -/
def getModelForComplexity (score : ℚ) (config : RoutingConfig) : TierRec :=
  let thresholdsSimple := jsOrQ config.simpleThreshold (35/100)
  let thresholdsComplex := jsOrQ config.complexThreshold (65/100)
  let modelsSimple := jsOrS config.simpleModel "claude-3-5-haiku-20241022"
  let modelsMedium := jsOrS config.mediumModel "claude-sonnet-4-20250514"
  let modelsComplex := jsOrS config.complexModel "claude-opus-4-20250514"
  if score < thresholdsSimple then
    ⟨modelsSimple, Tier.simple, score⟩
  else if score < thresholdsComplex then
    ⟨modelsMedium, Tier.medium, score⟩
  else
    ⟨modelsComplex, Tier.complex, score⟩

/-- `getModelForScore(score, config)` from ollama-classifier.js (the file
duplicates the mapper of classifier.js verbatim). -/
def getModelForScore (score : ℚ) (config : RoutingConfig) : TierRec :=
  let thresholdsSimple := jsOrQ config.simpleThreshold (35/100)
  let thresholdsComplex := jsOrQ config.complexThreshold (65/100)
  let modelsSimple := jsOrS config.simpleModel "claude-3-5-haiku-20241022"
  let modelsMedium := jsOrS config.mediumModel "claude-sonnet-4-20250514"
  let modelsComplex := jsOrS config.complexModel "claude-opus-4-20250514"
  if score < thresholdsSimple then
    ⟨modelsSimple, Tier.simple, score⟩
  else if score < thresholdsComplex then
    ⟨modelsMedium, Tier.medium, score⟩
  else
    ⟨modelsComplex, Tier.complex, score⟩

/-! ### A small matcher for the regular-expression fragment used by the
pattern lists of classifier.js.  The patterns there use only literal
characters, `.*`, `.?` and an optional leading `^` anchor, always with the
case-insensitive flag; matching is `RegExp.test`, i.e. an unanchored
search unless the pattern starts with `^`.  A JavaScript `.` matches any
character except a line terminator. -/

/-- One atom of a pattern: a literal character, `.?` or `.*`. -/
inductive RAtom where
  | lit : Char → RAtom
  | anyOpt
  | anyStar
deriving DecidableEq, Repr

/-- Whether a JavaScript `.` (no `s` flag) matches this character: any
character except a line terminator. -/
def dotOk (c : Char) : Bool :=
  !(c == Char.ofNat 10 || c == Char.ofNat 13 ||
    c == Char.ofNat 0x2028 || c == Char.ofNat 0x2029)

/-- Match a pattern against the text starting at its first character.
Every recursive call strictly decreases `ps.length + xs.length`, so the
structural `fuel` argument, set to that sum plus one by `matchHere`,
never runs out; the `0` case is unreachable. -/
def matchHereF : ℕ → List RAtom → List Char → Bool
  | 0, ps, _ => ps.isEmpty
  | _ + 1, [], _ => true
  | _ + 1, RAtom.lit _ :: _, [] => false
  | fuel + 1, RAtom.lit c :: ps, x :: xs => x == c && matchHereF fuel ps xs
  | fuel + 1, RAtom.anyOpt :: ps, [] => matchHereF fuel ps []
  | fuel + 1, RAtom.anyOpt :: ps, x :: xs =>
      matchHereF fuel ps (x :: xs) || (dotOk x && matchHereF fuel ps xs)
  | fuel + 1, RAtom.anyStar :: ps, [] => matchHereF fuel ps []
  | fuel + 1, RAtom.anyStar :: ps, x :: xs =>
      matchHereF fuel ps (x :: xs) ||
        (dotOk x && matchHereF fuel (RAtom.anyStar :: ps) xs)

/-- Match a pattern against the text starting at its first character. -/
def matchHere (ps : List RAtom) (xs : List Char) : Bool :=
  matchHereF (ps.length + xs.length + 1) ps xs

/-- A compiled pattern: the `^` anchor flag and the atom sequence. -/
structure JsPattern where
  anchored : Bool
  atoms : List RAtom
deriving DecidableEq, Repr

/-- Compile the body of a pattern literal: `.*` and `.?` become the
corresponding atoms, everything else is a literal character. -/
def compilePat : List Char → List RAtom
  | [] => []
  | '.' :: '*' :: rest => RAtom.anyStar :: compilePat rest
  | '.' :: '?' :: rest => RAtom.anyOpt :: compilePat rest
  | c :: rest => RAtom.lit c :: compilePat rest

/-- Compile a pattern given as a string, honouring a leading `^` anchor. -/
def mkPattern (s : String) : JsPattern :=
  match s.toList with
  | '^' :: rest => ⟨true, compilePat rest⟩
  | l => ⟨false, compilePat l⟩

/-- `RegExp.test`: an anchored pattern must match at the start, an
unanchored one at some position of the text. -/
def testPat (p : JsPattern) (text : List Char) : Bool :=
  if p.anchored then matchHere p.atoms text
  else text.tails.any (fun t => matchHere p.atoms t)

/-- The apostrophe character, used by one of the simple patterns. -/
def aposS : String := String.mk [Char.ofNat 39]

/-- `COMPLEX_PATTERNS` of classifier.js. -/
def COMPLEX_PATTERNS : List JsPattern :=
  ([ "architect", "design.*system", "implement.*from scratch",
     "debug.*complex", "debug.*race.?condition", "race.?condition",
     "payment.*processing", "only.*happens", "optimize.*performance",
     "refactor.*entire", "security.*audit", "audit", "multi.?step",
     "step.?by.?step.*plan", "comprehensive", "in.?depth.*analysis",
     "compare.*contrast.*multiple", "trade.?offs", "edge.?cases",
     "error.?handling", "scalab", "distributed", "concurren",
     "async.*complex", "state.?machine", "algorithm", "data.?structure",
     "migration.*strategy", "breaking.*change", "backward.*compat",
     "vulnerabilit", "rollback", "high.?load", "circuit.?breaker",
     "microservice" ]).map mkPattern

/-- `SIMPLE_PATTERNS` of classifier.js. -/
def SIMPLE_PATTERNS : List JsPattern :=
  ([ "^what is", "^what" ++ aposS ++ "s", "^how do i", "^explain.*briefly",
     "^define", "^list", "^summarize", "^translate", "fix.*typo",
     "simple.*question", "quick.*question", "^yes or no", "^true or false",
     "format.*this", "convert.*to", "^rename", "add.*comment",
     "remove.*unused", "^what does.*mean", "^can you.*explain" ]).map mkPattern

/-- `MEDIUM_PATTERNS` of classifier.js. -/
def MEDIUM_PATTERNS : List JsPattern :=
  ([ "write.*function", "create.*component", "implement.*feature",
     "add.*endpoint", "fix.*bug", "update.*to", "modify",
     "change.*behavior", "test.*for", "write.*test" ]).map mkPattern

/-- Number of patterns of a list matching the text (the source counts one
per matching pattern). -/
def countMatches (pats : List JsPattern) (text : List Char) : ℕ :=
  pats.countP (fun p => testPat p text)

/-! ### Word counting, question marks, numbered lists and code blocks. -/

/-- JavaScript `\s` restricted to the whitespace characters that can occur
in the modelled texts (space, tab, newline, carriage return, form feed,
vertical tab). -/
def isWsJS (c : Char) : Bool :=
  c == ' ' || c == Char.ofNat 9 || c == Char.ofNat 10 ||
  c == Char.ofNat 13 || c == Char.ofNat 12 || c == Char.ofNat 11

/-- Number of maximal whitespace runs in the text; `prevWs` records whether
the previous character was whitespace. -/
def wsRunCount : List Char → Bool → ℕ
  | [], _ => 0
  | c :: cs, prevWs =>
      let w := isWsJS c
      (if w && !prevWs then 1 else 0) + wsRunCount cs w

/-- `text.split(/\s+/).length`: every maximal whitespace run is a
separator, so the array has one more element than there are runs (JavaScript
keeps empty fragments at the ends). -/
def wordCountJS (text : List Char) : ℕ :=
  wsRunCount text false + 1

/-- Number of question marks in the text (`text.match(/\?/g)`). -/
def questionMarkCount (text : List Char) : ℕ :=
  text.countP (fun c => c == '?')

/-- Whether a line matches `^\d+\.`: one or more digits then a dot.
`numDotAux` consumes the remaining digits and then requires a dot. -/
def numDotAux : List Char → Bool
  | [] => false
  | c :: rest => if c.isDigit then numDotAux rest else c == '.'

/-- Whether a line starts with `\d+\.`. -/
def startsNumDot : List Char → Bool
  | [] => false
  | c :: rest => c.isDigit && numDotAux rest

/-- `(text.match(/^\d+\./gm) || []).length`: with the `m` flag the anchor
matches at every line start, so this counts the lines beginning with
digits-then-dot. -/
def numberedItemCount (text : List Char) : ℕ :=
  (text.splitOn (Char.ofNat 10)).countP (fun ln => startsNumDot ln)

/-- The backtick character. -/
def btk : Char := Char.ofNat 96

/-- Whether the list starts with three backticks. -/
def startsTicks3 : List Char → Bool
  | a :: b :: c :: _ => a == btk && b == btk && c == btk
  | _ => false

/-- Drop characters until a suffix starting with three backticks (the
leftmost occurrence of the opening fence), if any. -/
def dropUntilTicks : List Char → Option (List Char)
  | [] => none
  | c :: cs =>
      if startsTicks3 (c :: cs) then some (c :: cs) else dropUntilTicks cs

/-- Given the characters after an opening fence, find the lazy (nearest)
closing fence: returns the number of newlines in the block body and the
characters after the closing fence. -/
def findClose : List Char → Option (ℕ × List Char)
  | [] => none
  | c :: cs =>
      if startsTicks3 (c :: cs) then some (0, cs.drop 2)
      else (findClose cs).map
        (fun r => (r.1 + (if c == Char.ofNat 10 then 1 else 0), r.2))

/-- Scan for successive fenced blocks (`/```[\s\S]*?```/g`), returning
`(number of blocks, total lines)`; each block contributes
`block.split('\n').length`, i.e. its newline count plus one.  `fuel`
bounds the recursion and is at least the text length at every call. -/
def scanBlocks : ℕ → List Char → ℕ × ℕ
  | 0, _ => (0, 0)
  | fuel + 1, l =>
      match dropUntilTicks l with
      | none => (0, 0)
      | some s =>
          match findClose (s.drop 3) with
          | none => (0, 0)
          | some r =>
              let rest := scanBlocks fuel r.2
              (rest.1 + 1, rest.2 + (r.1 + 1))

/-- `analyzeCodeContent(text)` from classifier.js: the number of fenced
code blocks and the total number of lines inside them. -/
def analyzeCodeContent (text : List Char) : ℕ × ℕ :=
  scanBlocks text.length text

/-! ### The heuristic scorer. -/

/-- The length-based adjustment of `calculateComplexity` (lines 106-109 of
classifier.js), translated branch for branch; note that the source tests
`wordCount > 200` before `wordCount > 500`, so the `+0.2` branch is
unreachable. -/
def lengthAdjust (wordCount : ℕ) : ℚ :=
  if wordCount < 20 then -(15/100)
  else if wordCount < 50 then -(5/100)
  else if wordCount > 200 then 1/10
  else if wordCount > 500 then 2/10
  else 0

/-- The code-content adjustment of `calculateComplexity` (lines 112-114 of
classifier.js). -/
def codeAdjust (codeBlocks codeLines : ℕ) : ℚ :=
  if codeLines > 100 then 15/100
  else if codeLines > 50 then 1/10
  else if codeBlocks > 0 && codeLines < 20 then -(5/100)
  else 0

/-- `calculateComplexity(prompt)` from classifier.js for a string prompt
(a non-string prompt is first serialized with `JSON.stringify`, which
yields a string, so every invocation of the scorer factors through this
function).  The additive adjustments are applied in source order and the
result is clamped to `[0,1]`. -/
def calculateComplexity (prompt : String) : ℚ :=
  let text := prompt.toList
  let lowered := text.map Char.toLower
  let wordCount := wordCountJS text
  let code := analyzeCodeContent text
  let score1 := (1/2 : ℚ) + lengthAdjust wordCount
  let score2 := score1 + codeAdjust code.1 code.2
  let complexMatches := countMatches COMPLEX_PATTERNS lowered
  let simpleMatches := countMatches SIMPLE_PATTERNS lowered
  let mediumMatches := countMatches MEDIUM_PATTERNS lowered
  let score3 := score2 + complexMatches * (8/100)
  let score4 := score3 - simpleMatches * (1/10)
  let score5 := score4 + mediumMatches * (3/100)
  let questionMarks := questionMarkCount text
  let score6 := if questionMarks > 0 && wordCount < 30 then score5 - 1/10
                else score5
  let score7 := if questionMarks > 3 then score6 + 1/10 else score6
  let numberedItems := numberedItemCount text
  let score8 := if numberedItems > 3 then score7 + 15/100 else score7
  max 0 (min 1 score8)

/-- The record returned by `classify` of classifier.js: the tier mapper
output plus the truncated prompt echo. -/
structure ClassifyOut where
  model : String
  tier : Tier
  score : ℚ
  promptEcho : String
deriving DecidableEq, Repr

/-- `classify(prompt, config)` from classifier.js. -/
def classify (prompt : String) (config : RoutingConfig) : ClassifyOut :=
  let score := calculateComplexity prompt
  let recommendation := getModelForComplexity score config
  ⟨recommendation.model, recommendation.tier, recommendation.score,
   prompt.take 100 ++ "..."⟩

/-! ### The Ollama classifier (ollama-classifier.js).  The HTTP exchange
is modelled by its outcome: `none` when the request failed (timeout,
transport error, or any exception while reading the malformed response —
the `catch` returns `null`), `some text` when it yielded the response
string `response.data.response`. -/

/-- The leftmost maximal digit run of the text (`text.match(/\d+/)`),
if any. -/
def firstDigitRun : List Char → Option (List Char)
  | [] => none
  | c :: cs =>
      if c.isDigit then some (c :: cs.takeWhile Char.isDigit)
      else firstDigitRun cs

/-- `parseInt` on a digit run. -/
def digitsToNat (l : List Char) : ℕ :=
  l.foldl (fun acc c => 10 * acc + (c.toNat - 48)) 0

/-- The first integer appearing in the string, if any. -/
def firstNat (s : String) : Option ℕ :=
  (firstDigitRun s.toList).map digitsToNat

/-- JavaScript `text.trim()`: strip whitespace from both ends. -/
def trimJS (s : String) : String :=
  String.mk (((s.toList.dropWhile isWsJS).reverse.dropWhile isWsJS).reverse)

/-- `Math.max(0, Math.min(1, x))`. -/
def jsClamp01 (x : ℚ) : ℚ :=
  max 0 (min 1 x)

/-- `classifyWithOllama(prompt)` as a function of the upstream outcome:
on success the response is trimmed, the first integer is parsed (the
string `5` is the `parseInt` argument when no digits are found), divided
by 10 and clamped to `[0,1]`; on failure the `catch` block returns
`null`.  The prompt only shapes the outgoing request, not the returned
score. -/
def classifyWithOllama (upstream : Option String) (_prompt : String) :
    Option ℚ :=
  match upstream with
  | none => none
  | some text =>
      let score := (firstNat (trimJS text)).getD 5
      some (jsClamp01 ((score : ℚ) / 10))

/-- A classification result as handled by the proxy: the JavaScript object
may lack a `model` field (the handler's initial value has none), hence
`Option`. -/
structure ClassificationResult where
  model : Option String
  tier : Tier
  score : ℚ
  source : Source
deriving DecidableEq, Repr

/-- `classify(prompt, config)` from ollama-classifier.js as a function of
the upstream outcome: `null` propagates, otherwise the tier mapper output
is stamped with `source: 'ollama'`. -/
def classifyOllama (upstream : Option String) (prompt : String)
    (config : RoutingConfig) : Option ClassificationResult :=
  match classifyWithOllama upstream prompt with
  | none => none
  | some score =>
      let recommendation := getModelForScore score config
      some ⟨some recommendation.model, recommendation.tier,
            recommendation.score, Source.ollama⟩

/-! ### The /v1/messages handler (proxy source accompanying the README):
prompt extraction, the classification fallback chain and the stats
update. -/

/-- A content part of an inbound message (`{type, text}`). -/
structure PartC where
  ptype : String
  ptext : String
deriving DecidableEq, Repr

/-- The `content` of an inbound message: a plain string, an array of
typed parts, or anything else. -/
inductive ContentC where
  | str : String → ContentC
  | parts : List PartC → ContentC
  | other
deriving DecidableEq, Repr

/-- An inbound message (`{role, content}`). -/
structure MessageC where
  role : String
  content : ContentC
deriving DecidableEq, Repr

/-- The `messages` field of the request body: absent, present but not an
array, or an array of messages. -/
inductive MessagesField where
  | absent
  | notArray
  | arr : List MessageC → MessagesField
deriving DecidableEq, Repr

/-- The part of the request body the prompt extractor looks at. -/
structure BodyC where
  messages : MessagesField
deriving DecidableEq, Repr

/-- The user-role messages of an array body, in order. -/
def userMessages (msgs : List MessageC) : List MessageC :=
  msgs.filter (fun m => m.role == "user")

/-- `extractPrompt(body)` from the proxy source: take the last user
message; a string content is returned directly, an array content is
reduced to its text-typed parts joined with newlines, anything else (and
a missing/non-array `messages` or no user message) yields the empty
string. -/
def extractPrompt (body : BodyC) : String :=
  match body.messages with
  | MessagesField.absent => ""
  | MessagesField.notArray => ""
  | MessagesField.arr msgs =>
      match (userMessages msgs).getLast? with
      | none => ""
      | some lastMessage =>
          match lastMessage.content with
          | ContentC.str s => s
          | ContentC.parts l =>
              String.intercalate "\n"
                ((l.filter (fun c => c.ptype == "text")).map
                  (fun c => c.ptext))
          | ContentC.other => ""

/-- The handler's initial classification value
`{tier: 'passthrough', score: 0, source: 'none'}` (no model field). -/
def initClassification : ClassificationResult :=
  ⟨none, Tier.passthrough, 0, Source.srcNone⟩

/-- The heuristic fallback as performed by the handler:
`classifyHeuristics(prompt, config)` followed by
`classification.source = 'heuristics'`. -/
def heuristicsResult (prompt : String) (config : RoutingConfig) :
    ClassificationResult :=
  let h := classify prompt config
  ⟨some h.model, h.tier, h.score, Source.heuristics⟩

/-- The classification block of the /v1/messages handler on the routing
path (routing enabled, no forced model): start from the initial value,
replace it with the Ollama result when Ollama is available (possibly
`null`), then fall back to heuristics unless the result is present with
`source === 'ollama'`. -/
def routeClassification (ollamaAvailable : Bool) (upstream : Option String)
    (prompt : String) (config : RoutingConfig) : ClassificationResult :=
  let afterOllama : Option ClassificationResult :=
    if ollamaAvailable then classifyOllama upstream prompt config
    else some initClassification
  match afterOllama with
  | none => heuristicsResult prompt config
  | some c =>
      if c.source == Source.ollama then c else heuristicsResult prompt config

/-- JavaScript `s.includes(pat)`: substring containment. -/
def strIncludes (s pat : String) : Bool :=
  s.toList.tails.any (fun t => pat.toList.isPrefixOf t)

/-- `originalModel?.includes('opus')`: the optional chaining yields a
falsy `undefined` when the model field is absent. -/
def jsOptIncludes (s : Option String) (pat : String) : Bool :=
  match s with
  | none => false
  | some v => strIncludes v pat

/-- The amount added to `stats.saved` by the handler for one routed
request: 1 exactly when the original model contains `opus` and the
target model does not. -/
def savedDelta (originalModel : Option String) (targetModel : String) : ℕ :=
  if jsOptIncludes originalModel "opus" && !(strIncludes targetModel "opus")
  then 1 else 0

/-! ### Helper lemmas and concrete configurations. -/

/-- A config carrying the default thresholds explicitly. -/
def defaultishConfig : RoutingConfig :=
  { simpleThreshold := some (35/100), complexThreshold := some (65/100) }

/-- When both thresholds are present and non-zero, the tier returned by
the mapper is given by the two comparisons of the source. -/
lemma getModelForComplexity_tier_eq (x t1 t2 : ℚ) (cfg : RoutingConfig)
    (h1 : cfg.simpleThreshold = some t1) (h2 : cfg.complexThreshold = some t2)
    (h1ne : t1 ≠ 0) (h2ne : t2 ≠ 0) :
    (getModelForComplexity x cfg).tier =
      (if x < t1 then Tier.simple
       else if x < t2 then Tier.medium else Tier.complex) := by
  have e1 : jsOrQ cfg.simpleThreshold (35/100) = t1 := by
    simp [jsOrQ, h1, h1ne]
  have e2 : jsOrQ cfg.complexThreshold (65/100) = t2 := by
    simp [jsOrQ, h2, h2ne]
  unfold getModelForComplexity
  simp only [e1, e2]
  by_cases hx1 : x < t1 <;> by_cases hx2 : x < t2 <;> simp [hx1, hx2]

/-- C1: for every score and every config with explicit (non-zero)
thresholds `t1 < t2`, the mapper returns exactly one of the three tiers,
chosen by the partition `[0,t1)`, `[t1,t2)`, `[t2,∞)`; in particular the
boundary scores `t1` and `t2` resolve to the upper tier (`medium` and
`complex` respectively). -/
theorem c1_tier_partition (s t1 t2 : ℚ) (cfg : RoutingConfig)
    (h1 : cfg.simpleThreshold = some t1) (h2 : cfg.complexThreshold = some t2)
    (h1ne : t1 ≠ 0) (h2ne : t2 ≠ 0) (hlt : t1 < t2) :
    ((getModelForComplexity s cfg).tier = Tier.simple ∨
     (getModelForComplexity s cfg).tier = Tier.medium ∨
     (getModelForComplexity s cfg).tier = Tier.complex)
    ∧ ((getModelForComplexity s cfg).tier = Tier.simple ↔ s < t1)
    ∧ ((getModelForComplexity s cfg).tier = Tier.medium ↔ t1 ≤ s ∧ s < t2)
    ∧ ((getModelForComplexity s cfg).tier = Tier.complex ↔ t2 ≤ s)
    ∧ (getModelForComplexity t1 cfg).tier = Tier.medium
    ∧ (getModelForComplexity t2 cfg).tier = Tier.complex := by
  have hT := fun x =>
    getModelForComplexity_tier_eq x t1 t2 cfg h1 h2 h1ne h2ne
  refine ⟨?_, ?_, ?_, ?_, ?_, ?_⟩
  · rw [hT s]
    by_cases hx1 : s < t1 <;> by_cases hx2 : s < t2 <;> simp [hx1, hx2]
  · rw [hT s]
    by_cases hx1 : s < t1 <;> by_cases hx2 : s < t2 <;> simp [hx1, hx2]
  · rw [hT s]
    by_cases hx1 : s < t1
    · simp only [if_pos hx1]
      constructor
      · intro h; exact absurd h (by simp)
      · rintro ⟨ha, _⟩; exact absurd hx1 (not_lt.mpr ha)
    · by_cases hx2 : s < t2
      · simp [hx1, hx2, not_lt.mp hx1]
      · simp only [if_neg hx1, if_neg hx2]
        constructor
        · intro h; exact absurd h (by simp)
        · rintro ⟨_, hb⟩; exact absurd hb hx2
  · rw [hT s]
    by_cases hx1 : s < t1
    · simp only [if_pos hx1]
      constructor
      · intro h; exact absurd h (by simp)
      · intro h; exact absurd (lt_of_lt_of_le hlt h) (not_lt.mpr hx1.le)
    · by_cases hx2 : s < t2
      · simp only [if_neg hx1, if_pos hx2]
        constructor
        · intro h; exact absurd h (by simp)
        · intro h; exact absurd hx2 (not_lt.mpr h)
      · simp [hx1, hx2, not_lt.mp hx2]
  · rw [hT t1]
    rw [if_neg (lt_irrefl t1), if_pos hlt]
  · rw [hT t2]
    rw [if_neg (not_lt.mpr hlt.le), if_neg (lt_irrefl t2)]

/-- Witness for C1 at the default thresholds: the boundary score 0.35
maps to the medium tier. -/
theorem c1_tier_partition_witness :
    (getModelForComplexity (35/100) defaultishConfig).tier = Tier.medium :=
  (c1_tier_partition (35/100) (35/100) (65/100) defaultishConfig rfl rfl
    (by norm_num) (by norm_num) (by norm_num)).2.2.2.2.1

/-- C5 counterexample: with the default thresholds, the boundary score
0.35 maps to medium (not simple, as the claim states) and 0.65 maps to
complex (not medium). -/
theorem c5_counterexample :
    (getModelForComplexity (35/100) defaultishConfig).tier = Tier.medium
    ∧ Tier.medium ≠ Tier.simple
    ∧ (getModelForComplexity (65/100) defaultishConfig).tier = Tier.complex
    ∧ Tier.complex ≠ Tier.medium := by
  refine ⟨?_, by decide, ?_, by decide⟩ <;>
    · rw [getModelForComplexity_tier_eq _ (35/100) (65/100) defaultishConfig
        rfl rfl (by norm_num) (by norm_num)]
      norm_num

/-- C5 as amended: boundary scores resolve to the upper tier — a score
equal to `simpleThreshold` maps to medium and a score equal to
`complexThreshold` maps to complex (for configs with explicit non-zero
thresholds `t1 < t2`). -/
theorem c5_boundary_upper (t1 t2 : ℚ) (cfg : RoutingConfig)
    (h1 : cfg.simpleThreshold = some t1) (h2 : cfg.complexThreshold = some t2)
    (h1ne : t1 ≠ 0) (h2ne : t2 ≠ 0) (hlt : t1 < t2) :
    (getModelForComplexity t1 cfg).tier = Tier.medium
    ∧ (getModelForComplexity t2 cfg).tier = Tier.complex := by
  constructor
  · rw [getModelForComplexity_tier_eq t1 t1 t2 cfg h1 h2 h1ne h2ne]
    rw [if_neg (lt_irrefl t1), if_pos hlt]
  · rw [getModelForComplexity_tier_eq t2 t1 t2 cfg h1 h2 h1ne h2ne]
    rw [if_neg (not_lt.mpr hlt.le), if_neg (lt_irrefl t2)]

/-- Witness for the amended C5 at the default thresholds: the boundary
score 0.65 maps to the complex tier. -/
theorem c5_boundary_upper_witness :
    (getModelForComplexity (65/100) defaultishConfig).tier = Tier.complex :=
  (c5_boundary_upper (35/100) (65/100) defaultishConfig rfl rfl
    (by norm_num) (by norm_num) (by norm_num)).2

/-- C10: the tier mapper of classifier.js and the tier mapper of
ollama-classifier.js are extensionally equal — for every score and
config they return the same `{model, tier, score}` record. -/
theorem c10_mappers_equal (s : ℚ) (cfg : RoutingConfig) :
    getModelForComplexity s cfg = getModelForScore s cfg := rfl

/-- C9: the heuristic score is always clamped to the unit interval — for
every input text (a non-string input is first serialized to a string,
so this covers every invocation), `0 ≤ calculateComplexity text ≤ 1`. -/
theorem c9_score_clamped (prompt : String) :
    0 ≤ calculateComplexity prompt ∧ calculateComplexity prompt ≤ 1 := by
  unfold calculateComplexity
  exact ⟨le_max_left _ _, max_le zero_le_one (min_le_left _ _)⟩

/-- Witness for C9 on a concrete prompt. -/
theorem c9_score_clamped_witness :
    0 ≤ calculateComplexity "hello" ∧ calculateComplexity "hello" ≤ 1 :=
  c9_score_clamped "hello"

/-- C4 (code bug): in the source, `wordCount > 200` is tested before
`wordCount > 500`, so the `+0.2` branch is unreachable and a text of 501
words receives exactly the same `+0.1` adjustment as a text of 300
words — not a strictly larger one. -/
theorem c4_dead_branch :
    lengthAdjust 501 = 1/10 ∧ lengthAdjust 300 = 1/10
    ∧ lengthAdjust 501 = lengthAdjust 300
    ∧ ¬ lengthAdjust 300 < lengthAdjust 501 := by
  refine ⟨?_, ?_, ?_, ?_⟩ <;> norm_num [lengthAdjust]

/-! ### The three literal prompts of the spec scenarios. -/

/-- The literal simple-scenario prompt of the spec. -/
def specPrompt1 : String := "What is TypeScript?"

/-- The literal medium-scenario prompt of the spec. -/
def specPrompt2 : String := "Write a function to reverse a string in JavaScript"

/-- The literal complex-scenario prompt of the spec. -/
def specPrompt3 : String :=
  "Architect a distributed system for handling 1M requests per second with proper caching, load balancing, and database sharding. Consider edge cases and error handling."

set_option maxRecDepth 16384

/-- The heuristic score of the first literal prompt (3 words, one simple
pattern match, one question mark): 0.5 - 0.15 - 0.1 - 0.1 = 0.15. -/
lemma specPrompt1_score : calculateComplexity specPrompt1 = 3/20 := by
  have hw : wordCountJS specPrompt1.toList = 3 := by decide
  have hc : analyzeCodeContent specPrompt1.toList = (0, 0) := by decide
  have hcm : countMatches COMPLEX_PATTERNS
      (specPrompt1.toList.map Char.toLower) = 0 := by decide
  have hsm : countMatches SIMPLE_PATTERNS
      (specPrompt1.toList.map Char.toLower) = 1 := by decide
  have hmm : countMatches MEDIUM_PATTERNS
      (specPrompt1.toList.map Char.toLower) = 0 := by decide
  have hq : questionMarkCount specPrompt1.toList = 1 := by decide
  have hn : numberedItemCount specPrompt1.toList = 0 := by decide
  unfold calculateComplexity
  dsimp only
  rw [hw, hc, hcm, hsm, hmm, hq, hn]
  norm_num [lengthAdjust, codeAdjust]

/-- The heuristic score of the second literal prompt (9 words, one medium
pattern match): 0.5 - 0.15 + 0.03 = 0.38. -/
lemma specPrompt2_score : calculateComplexity specPrompt2 = 19/50 := by
  have hw : wordCountJS specPrompt2.toList = 9 := by decide
  have hc : analyzeCodeContent specPrompt2.toList = (0, 0) := by decide
  have hcm : countMatches COMPLEX_PATTERNS
      (specPrompt2.toList.map Char.toLower) = 0 := by decide
  have hsm : countMatches SIMPLE_PATTERNS
      (specPrompt2.toList.map Char.toLower) = 0 := by decide
  have hmm : countMatches MEDIUM_PATTERNS
      (specPrompt2.toList.map Char.toLower) = 1 := by decide
  have hq : questionMarkCount specPrompt2.toList = 0 := by decide
  have hn : numberedItemCount specPrompt2.toList = 0 := by decide
  unfold calculateComplexity
  dsimp only
  rw [hw, hc, hcm, hsm, hmm, hq, hn]
  norm_num [lengthAdjust, codeAdjust]

/-- The heuristic score of the third literal prompt (24 words, four
complex pattern matches — architect, distributed, edge cases, error
handling): 0.5 - 0.05 + 0.32 = 0.77. -/
lemma specPrompt3_score : calculateComplexity specPrompt3 = 77/100 := by
  have hw : wordCountJS specPrompt3.toList = 24 := by decide
  have hc : analyzeCodeContent specPrompt3.toList = (0, 0) := by decide
  have hcm : countMatches COMPLEX_PATTERNS
      (specPrompt3.toList.map Char.toLower) = 4 := by decide
  have hsm : countMatches SIMPLE_PATTERNS
      (specPrompt3.toList.map Char.toLower) = 0 := by decide
  have hmm : countMatches MEDIUM_PATTERNS
      (specPrompt3.toList.map Char.toLower) = 0 := by decide
  have hq : questionMarkCount specPrompt3.toList = 0 := by decide
  have hn : numberedItemCount specPrompt3.toList = 0 := by decide
  unfold calculateComplexity
  dsimp only
  rw [hw, hc, hcm, hsm, hmm, hq, hn]
  norm_num [lengthAdjust, codeAdjust]

/-- C6: under the default config (thresholds 0.35 and 0.65) the three
literal prompts of the spec classify as simple (score below 0.35), medium
(score in [0.35, 0.65)) and complex (score at least 0.65) respectively. -/
theorem c6_literal_prompts :
    calculateComplexity specPrompt1 < 35/100
    ∧ (classify specPrompt1 {}).tier = Tier.simple
    ∧ 35/100 ≤ calculateComplexity specPrompt2
    ∧ calculateComplexity specPrompt2 < 65/100
    ∧ (classify specPrompt2 {}).tier = Tier.medium
    ∧ 65/100 ≤ calculateComplexity specPrompt3
    ∧ (classify specPrompt3 {}).tier = Tier.complex := by
  refine ⟨?_, ?_, ?_, ?_, ?_, ?_, ?_⟩
  · rw [specPrompt1_score]; norm_num
  · simp only [classify]
    rw [specPrompt1_score]
    simp only [getModelForComplexity, jsOrQ, jsOrS]
    norm_num
  · rw [specPrompt2_score]; norm_num
  · rw [specPrompt2_score]; norm_num
  · simp only [classify]
    rw [specPrompt2_score]
    simp only [getModelForComplexity, jsOrQ, jsOrS]
    norm_num
  · rw [specPrompt3_score]; norm_num
  · simp only [classify]
    rw [specPrompt3_score]
    simp only [getModelForComplexity, jsOrQ, jsOrS]
    norm_num

/-- C3 counterexample: the handler tests for the substring `opus`, not
for equality with the configured top-tier model.  A request whose
original model is `claude-3-opus-20240229` — an opus model that is not
the configured top-tier model `claude-opus-4-20250514` — and whose target
is the haiku model still increments `saved`, contradicting the claimed
"if and only if the original model is the configured top-tier model". -/
theorem c3_counterexample :
    savedDelta (some "claude-3-opus-20240229") "claude-3-5-haiku-20241022" = 1
    ∧ (getModelForComplexity (9/10) defaultishConfig).model
        = "claude-opus-4-20250514"
    ∧ "claude-3-opus-20240229" ≠ "claude-opus-4-20250514" := by
  refine ⟨by decide, ?_, by decide⟩
  have e1 : jsOrQ defaultishConfig.simpleThreshold (35/100) = 35/100 := by
    simp [jsOrQ, defaultishConfig]
  have e2 : jsOrQ defaultishConfig.complexThreshold (65/100) = 65/100 := by
    simp [jsOrQ, defaultishConfig]
  unfold getModelForComplexity
  simp only [e1, e2]
  norm_num [jsOrS, defaultishConfig]

/-- C3 as amended: for every routed request, `saved` increments by
exactly 1 if and only if the original model field is present and contains
the substring `opus` while the resolved target model does not contain
`opus`; otherwise `saved` is unchanged. -/
theorem c3_saved_substring (originalModel : Option String)
    (targetModel : String) :
    (savedDelta originalModel targetModel = 1 ↔
      jsOptIncludes originalModel "opus" = true
      ∧ strIncludes targetModel "opus" = false)
    ∧ (savedDelta originalModel targetModel = 0
       ∨ savedDelta originalModel targetModel = 1) := by
  cases h1 : jsOptIncludes originalModel "opus" <;>
    cases h2 : strIncludes targetModel "opus" <;>
      simp [savedDelta, h1, h2]

/-- C7: the prompt extractor returns the string content of the last
user-role message directly, reduces an array content to its text-typed
parts joined with newlines, and degrades to the empty string when
`messages` is missing or not an array or contains no user message. -/
theorem c7_extract (body : BodyC) :
    (∀ msgs m s, body.messages = MessagesField.arr msgs →
       (userMessages msgs).getLast? = some m → m.content = ContentC.str s →
       extractPrompt body = s)
    ∧ (∀ msgs m l, body.messages = MessagesField.arr msgs →
       (userMessages msgs).getLast? = some m → m.content = ContentC.parts l →
       extractPrompt body = String.intercalate "\n"
         ((l.filter (fun c => c.ptype == "text")).map (fun c => c.ptext)))
    ∧ (body.messages = MessagesField.absent → extractPrompt body = "")
    ∧ (body.messages = MessagesField.notArray → extractPrompt body = "")
    ∧ (∀ msgs, body.messages = MessagesField.arr msgs →
       userMessages msgs = [] → extractPrompt body = "") := by
  refine ⟨?_, ?_, ?_, ?_, ?_⟩
  · intro msgs m s hmsgs hlast hcontent
    simp [extractPrompt, hmsgs, hlast, hcontent]
  · intro msgs m l hmsgs hlast hcontent
    simp [extractPrompt, hmsgs, hlast, hcontent]
  · intro h
    simp [extractPrompt, h]
  · intro h
    simp [extractPrompt, h]
  · intro msgs hmsgs hempty
    simp [extractPrompt, hmsgs, hempty]

/-- Witness for C7: a concrete body whose last user message has string
content extracts to that string. -/
theorem c7_extract_witness :
    extractPrompt ⟨MessagesField.arr
      [⟨"system", ContentC.str "sys"⟩, ⟨"user", ContentC.str "hi"⟩]⟩ = "hi" :=
  (c7_extract _).1 [⟨"system", ContentC.str "sys"⟩, ⟨"user", ContentC.str "hi"⟩]
    ⟨"user", ContentC.str "hi"⟩ "hi" rfl (by decide) rfl

/-- On success the Ollama classifier stamps `source: 'ollama'` and a
present model field. -/
lemma classifyOllama_inv (upstream : Option String) (prompt : String)
    (config : RoutingConfig) (c : ClassificationResult)
    (h : classifyOllama upstream prompt config = some c) :
    c.source = Source.ollama ∧ c.model ≠ none := by
  unfold classifyOllama at h
  cases hc : classifyWithOllama upstream prompt with
  | none => rw [hc] at h; cases h
  | some score =>
      rw [hc] at h
      cases h
      exact ⟨rfl, by simp⟩

/-- C2: the classification fallback of the /v1/messages handler (routing
enabled, no override): when the external scorer is available and returns
a non-null result, that result is used and carries `source = ollama`;
when the scorer is unavailable or returns null, the heuristic result
stamped `source = heuristics` is used; in every case the result is a
populated classification (present model, source either ollama or
heuristics) — never null or absent. -/
theorem c2_router_fallback (available : Bool) (upstream : Option String)
    (prompt : String) (cfg : RoutingConfig) :
    (∀ c, available = true → classifyOllama upstream prompt cfg = some c →
       routeClassification available upstream prompt cfg = c
       ∧ c.source = Source.ollama)
    ∧ ((available = false ∨ classifyOllama upstream prompt cfg = none) →
       routeClassification available upstream prompt cfg
         = heuristicsResult prompt cfg)
    ∧ (heuristicsResult prompt cfg).source = Source.heuristics
    ∧ (routeClassification available upstream prompt cfg).model ≠ none
    ∧ ((routeClassification available upstream prompt cfg).source
         = Source.ollama
       ∨ (routeClassification available upstream prompt cfg).source
         = Source.heuristics) := by
  have hre : ∀ hav hup,
      routeClassification hav hup prompt cfg = heuristicsResult prompt cfg
      ∨ ∃ c, classifyOllama hup prompt cfg = some c
          ∧ routeClassification hav hup prompt cfg = c
          ∧ c.source = Source.ollama := by
    intro hav hup
    unfold routeClassification
    cases hav with
    | false => simp [initClassification]
    | true =>
        cases hc : classifyOllama hup prompt cfg with
        | none => simp
        | some c =>
            have hinv := classifyOllama_inv hup prompt cfg c hc
            refine Or.inr ⟨c, rfl, ?_, hinv.1⟩
            simp [hc, hinv.1]
  refine ⟨?_, ?_, rfl, ?_, ?_⟩
  · intro c hav hc
    subst hav
    unfold routeClassification
    have hinv := classifyOllama_inv upstream prompt cfg c hc
    simp [hc, hinv.1]
  · intro h
    unfold routeClassification
    cases h with
    | inl h => subst h; simp [initClassification]
    | inr h => cases available <;> simp [initClassification, h]
  · rcases hre available upstream with h | ⟨c, hc, he, hs⟩
    · rw [h]
      simp [heuristicsResult]
    · rw [he]
      exact (classifyOllama_inv upstream prompt cfg c hc).2
  · rcases hre available upstream with h | ⟨c, hc, he, hs⟩
    · rw [h]
      exact Or.inr rfl
    · rw [he]
      exact Or.inl hs

/-- Witness for C2: with the scorer unavailable the router returns the
heuristic result. -/
theorem c2_router_fallback_witness :
    routeClassification false none "hello" {} = heuristicsResult "hello" {} :=
  (c2_router_fallback false none "hello" {}).2.1 (Or.inl rfl)

/-- C8: the external scorer call returns `null` exactly on a failed
exchange; on a successful exchange it returns the first integer of the
response (5 when none is present) divided by 10 and clamped to [0,1],
and every returned score lies in [0,1]. -/
theorem c8_ollama_contract (upstream : Option String) (prompt : String) :
    (classifyWithOllama upstream prompt = none ↔ upstream = none)
    ∧ (∀ q, classifyWithOllama upstream prompt = some q → 0 ≤ q ∧ q ≤ 1)
    ∧ (∀ text, upstream = some text → firstNat (trimJS text) = none →
       classifyWithOllama upstream prompt = some (1/2))
    ∧ (∀ text n, upstream = some text → firstNat (trimJS text) = some n →
       n ≤ 10 → classifyWithOllama upstream prompt = some ((n : ℚ) / 10)) := by
  refine ⟨?_, ?_, ?_, ?_⟩
  · cases upstream <;> simp [classifyWithOllama]
  · intro q hq
    cases upstream with
    | none => cases hq
    | some text =>
        simp only [classifyWithOllama] at hq
        cases hq
        unfold jsClamp01
        exact ⟨le_max_left _ _, max_le zero_le_one (min_le_left _ _)⟩
  · intro text htext hnone
    subst htext
    simp only [classifyWithOllama, hnone, Option.getD_none]
    unfold jsClamp01
    norm_num
  · intro text n htext hn hle
    subst htext
    simp only [classifyWithOllama, hn, Option.getD_some]
    unfold jsClamp01
    have h1 : ((n : ℚ)) / 10 ≤ 1 := by
      rw [div_le_one (by norm_num)]
      exact_mod_cast (by exact_mod_cast hle : (n : ℚ) ≤ 10)
    have h0 : (0 : ℚ) ≤ (n : ℚ) / 10 := by positivity
    rw [min_eq_right h1, max_eq_right h0]

/-- Witness for C8: a response reading `7` yields the score 0.7. -/
theorem c8_ollama_contract_witness :
    classifyWithOllama (some "7") "anything" = some ((7 : ℚ) / 10) :=
  (c8_ollama_contract (some "7") "anything").2.2.2 "7" 7 rfl (by decide)
    (by norm_num)

end SmartRouter
